import Mathlib

/-
Verification development for the zillow Go client library.

The library is a typed HTTP client: each operation serializes a request
struct into URL query parameters (Go url.Values), issues one HTTP GET
against a base URL plus an operation path, and decodes the XML response
body into a typed result struct.

The embedding below translates the Go source (zillow.go, latest revision):
pure query construction is translated directly; the effectful parts
(http.Get and the xml decoder over the response body stream) are modelled
by explicit parameters: a transport function from the request URL to
either a transport error or an HTTP response (status and body), and a
decode function from the body to either a decode error or the typed
result.  Per the documented semantics of Go net/http, http.Get returns a
non-nil error only on transport failure (connection, DNS, timeout); a
response with a non-2xx status code is returned with a nil error, which
the embedding reflects by placing every delivered response, whatever its
status, in the ok branch of the transport result.
-/

namespace Zillow

/-- Go error values produced by a call: either the error returned by
http.Get (transport failure) or the error returned by the xml decoder. -/
inductive GoError where
  | transportErr (msg : String)
  | decodeErr (msg : String)
deriving DecidableEq

/-- Model of the parts of Go http.Response the code uses: the status code
and the full response body. -/
structure HttpResponse where
  status : Nat
  body : String
deriving DecidableEq

/-- Result of http.Get: transport error, or a delivered response (with any
status code, 2xx or not). -/
abbrev TransportResult := Except String HttpResponse

/-- Model of strconv.FormatBool. -/
def formatBool (b : Bool) : String := if b then "true" else "false"

/-- Model of strconv.Itoa (Go int rendered in decimal with a leading minus
sign when negative), via Lean integer printing which matches it. -/
def itoa (i : Int) : String := toString i

/-- Model of Go url.Values: an association list from parameter key to the
list of values under that key (each operation builds it with singleton
value lists, mirroring the url.Values literals in the source). -/
abbrev Values := List (String × List String)

/-- Byte-wise lexicographic comparison of character lists by code point.
For UTF-8 encoded strings, byte-wise order and code-point order agree, so
this models Go string comparison as used by sort.Strings. -/
def charListLe : List Char → List Char → Bool
  | [], _ => true
  | _ :: _, [] => false
  | a :: as, b :: bs =>
    if a.toNat < b.toNat then true
    else if b.toNat < a.toNat then false
    else charListLe as bs

/-- Go string less-or-equal, as used by sort.Strings inside
url.Values.Encode. -/
def goStringLe (a b : String) : Bool := charListLe a.data b.data

/-- Insert one key-values pair into a key-sorted list, keeping it sorted. -/
def insertPair (p : String × List String) : Values → Values
  | [] => [p]
  | q :: rest => if goStringLe p.1 q.1 then p :: q :: rest else q :: insertPair p rest

/-- Sort an association list by key (models the sort.Strings over the map
keys performed by url.Values.Encode). -/
def sortByKey : Values → Values
  | [] => []
  | p :: rest => insertPair p (sortByKey rest)

/-- Concatenation of the images of a list-valued function. -/
def concatMap (f : α → List β) : List α → List β
  | [] => []
  | a :: as => f a ++ concatMap f as

/-- UTF-8 encoding of one character, as the list of its byte values
(Go strings are UTF-8 byte sequences and url.QueryEscape works byte by
byte). -/
def utf8Bytes (c : Char) : List Nat :=
  let v := c.toNat
  if v < 0x80 then [v]
  else if v < 0x800 then [0xC0 + v / 0x40, 0x80 + v % 0x40]
  else if v < 0x10000 then
    [0xE0 + v / 0x1000, 0x80 + (v / 0x40) % 0x40, 0x80 + v % 0x40]
  else
    [0xF0 + v / 0x40000, 0x80 + (v / 0x1000) % 0x40, 0x80 + (v / 0x40) % 0x40, 0x80 + v % 0x40]

/-- The bytes url.QueryEscape leaves unescaped: ASCII letters, digits, and
the marks minus, underscore, dot, tilde. -/
def isUnreservedByte (b : Nat) : Bool :=
  (decide (0x41 ≤ b) && decide (b ≤ 0x5A)) ||
  (decide (0x61 ≤ b) && decide (b ≤ 0x7A)) ||
  (decide (0x30 ≤ b) && decide (b ≤ 0x39)) ||
  b == 0x2D || b == 0x5F || b == 0x2E || b == 0x7E

/-- Uppercase hexadecimal digit for a value below 16. -/
def hexDigit (n : Nat) : Char :=
  if n < 10 then Char.ofNat (48 + n) else Char.ofNat (55 + n)

/-- Escaping of one byte under url.QueryEscape: unreserved bytes stand for
themselves, space becomes plus, every other byte becomes a percent escape
with uppercase hex digits. -/
def escapeByte (b : Nat) : List Char :=
  if isUnreservedByte b then [Char.ofNat b]
  else if b == 0x20 then ['+']
  else ['%', hexDigit (b / 16), hexDigit (b % 16)]

/-- Model of url.QueryEscape. -/
def queryEscape (s : String) : String :=
  String.mk (concatMap escapeByte (concatMap utf8Bytes s.data))

/-- Model of url.Values.Encode: sort the keys, then join the escaped
key=value pieces (one piece per value) with ampersands. -/
def Values.encode (v : Values) : String :=
  String.intercalate "&"
    (concatMap (fun p => p.2.map (fun x => queryEscape p.1 ++ "=" ++ queryEscape x)) (sortByKey v))

/-- Model of Go encoding/xml Name: namespace and local element name. -/
structure XmlName where
  Space : String
  Local : String
deriving DecidableEq, Inhabited

/-- Status envelope carried by every response (struct Message). -/
structure Message where
  Text : String
  Code : Int
  LimitWarning : Bool
deriving DecidableEq, Inhabited

/-- Postal address payload (struct Address). -/
structure Address where
  Street : String
  Zipcode : String
  City : String
  State : String
  Latitude : String
  Longitude : String
deriving DecidableEq, Inhabited

/-- Money amount: currency attribute plus integer character data
(struct Value). -/
structure Value where
  Currency : String
  Value : Int
deriving DecidableEq, Inhabited

/-- Valuation change over a duration (struct ValueChange). -/
structure ValueChange where
  Duration : Int
  Currency : String
  Value : Int
deriving DecidableEq, Inhabited

/-- Valuation figures (struct Zestimate). -/
structure Zestimate where
  Amount : Value
  LastUpdated : String
  ValueChange : ValueChange
  Low : Value
  High : Value
  Percentile : String
deriving DecidableEq, Inhabited

/-- Request for the GetZestimate operation (struct ZestimateRequest). -/
structure ZestimateRequest where
  Zpid : String
  Rentzestimate : Bool
deriving DecidableEq, Inhabited

/-- Local real estate region descriptor (struct RealEstateRegion). -/
structure RealEstateRegion where
  XMLName : XmlName
  ID : String
  «Type» : String
  Name : String
  ZIndex : String
  ZIndexOneYearChange : Float
  Overview : String
  ForSaleByOwner : String
  ForSale : String
deriving Inhabited

/-- Link set attached to a property (struct Links). -/
structure Links where
  XMLName : XmlName
  HomeDetails : String
  GraphsAndData : String
  MapThisHome : String
  MyZestimator : String
  Comparables : String
deriving DecidableEq, Inhabited

/-- Result of the GetZestimate operation (struct ZestimateResult). -/
structure ZestimateResult where
  XMLName : XmlName
  Request : ZestimateRequest
  Message : Message
  Links : Links
  Address : Address
  Zestimate : Zestimate
  LocalRealEstate : List RealEstateRegion
  ZipcodeID : String
  CityID : String
  CountyID : String
  StateID : String
deriving Inhabited

/-- Request for the search operations (struct SearchRequest). -/
structure SearchRequest where
  Address : String
  CityStateZip : String
  Rentzestimate : Bool
deriving DecidableEq, Inhabited

/-- One search hit (struct SearchResult). -/
structure SearchResult where
  XMLName : XmlName
  Zpid : String
  Links : Links
  Address : Address
  Zestimate : Zestimate
  LocalRealEstate : List RealEstateRegion
deriving Inhabited

/-- Result of the GetSearchResults operation (struct SearchResults). -/
structure SearchResults where
  XMLName : XmlName
  Request : SearchRequest
  Message : Message
  Results : List SearchResult
deriving Inhabited

/-- Request for the GetChart operation (struct ChartRequest). -/
structure ChartRequest where
  Zpid : String
  UnitType : String
  Width : Int
  Height : Int
  Duration : String
deriving DecidableEq, Inhabited

/-- Result of the GetChart operation (struct ChartResult). -/
structure ChartResult where
  XMLName : XmlName
  Request : ChartRequest
  Message : Message
  Url : String
deriving DecidableEq, Inhabited

/-- Request for the comparable-sales operations (struct CompsRequest). -/
structure CompsRequest where
  Zpid : String
  Count : Int
  Rentzestimate : Bool
deriving DecidableEq, Inhabited

/-- Principal property of a comps response (struct Principal). -/
structure Principal where
  Zpid : String
  Links : Links
  Address : Address
  Zestimate : Zestimate
deriving DecidableEq, Inhabited

/-- One comparable property (struct Comp). -/
structure Comp where
  Score : Float
  Zpid : String
  Links : Links
  Address : Address
  Zestimate : Zestimate
deriving Inhabited

/-- Result of the GetComps operation (struct CompsResult). -/
structure CompsResult where
  XMLName : XmlName
  Request : CompsRequest
  Message : Message
  Principal : Principal
  Comparables : List Comp
deriving Inhabited

/-- Principal property with deep details (struct DeepPrincipal). -/
structure DeepPrincipal where
  Zpid : String
  Links : Links
  Address : Address
  TaxAssesmentYear : Int
  TaxAssesment : Float
  YearBuilt : Int
  LotSizeSqFt : Int
  FinishedSqFt : Int
  Bathrooms : Float
  Bedrooms : Int
  LastSoldDate : String
  LastSoldPrice : Value
  Zestimate : Zestimate
  LocalRealEstate : List RealEstateRegion
deriving Inhabited

/-- One deep comparable property (struct DeepComp). -/
structure DeepComp where
  Score : Float
  Zpid : String
  Links : Links
  Address : Address
  TaxAssesmentYear : Int
  TaxAssesment : Float
  YearBuilt : Int
  LotSizeSqFt : Int
  FinishedSqFt : Int
  Bathrooms : Float
  Bedrooms : Int
  LastSoldDate : String
  LastSoldPrice : Value
  Zestimate : Zestimate
deriving Inhabited

/-- Result of the GetDeepComps operation (struct DeepCompsResult). -/
structure DeepCompsResult where
  XMLName : XmlName
  Request : CompsRequest
  Message : Message
  Principal : DeepPrincipal
  Comparables : List DeepComp
deriving Inhabited

/-- One deep search hit (struct DeepSearchResult). -/
structure DeepSearchResult where
  XMLName : XmlName
  Zpid : String
  Links : Links
  Address : Address
  FIPSCounty : String
  UseCode : String
  TaxAssessmentYear : Int
  TaxAssessment : Float
  YearBuilt : Int
  LotSizeSqFt : Int
  FinishedSqFt : Int
  Bathrooms : Float
  Bedrooms : Int
  LastSoldDate : String
  LastSoldPrice : Value
  Zestimate : Zestimate
  LocalRealEstate : List RealEstateRegion
deriving Inhabited

/-- Result of the GetDeepSearchResults operation
(struct DeepSearchResults). -/
structure DeepSearchResults where
  XMLName : XmlName
  Request : SearchRequest
  Message : Message
  Results : List DeepSearchResult
deriving Inhabited

/-- Request for the GetRegionChart operation
(struct RegionChartRequest). -/
structure RegionChartRequest where
  City : String
  State : String
  Neighborhood : String
  Zipcode : String
  UnitType : String
  Width : Int
  Height : Int
  ChartDuration : String
deriving DecidableEq, Inhabited

/-- Result of the GetRegionChart operation (struct RegionChartResult). -/
structure RegionChartResult where
  XMLName : XmlName
  Request : RegionChartRequest
  Message : Message
  Url : String
  Zindex : Value
deriving DecidableEq, Inhabited

/-- Request for the GetUpdatedPropertyDetails operation
(struct UpdatedPropertyDetailsRequest). -/
structure UpdatedPropertyDetailsRequest where
  Zpid : String
deriving DecidableEq, Inhabited

/-- Listing posting data (struct Posting). -/
structure Posting where
  Status : String
  AgentName : String
  AgentProfileUrl : String
  Brokerage : String
  «Type» : String
  LastUpdatedDate : String
  ExternalUrl : String
  MLS : String
deriving DecidableEq, Inhabited

/-- Listing image set (struct Images). -/
structure Images where
  Count : Int
  Urls : List String
deriving DecidableEq, Inhabited

/-- Owner-edited facts (struct EditedFacts). -/
structure EditedFacts where
  UseCode : String
  Bedrooms : Int
  Bathrooms : Float
  FinishedSqFt : Int
  LotSizeSqFt : Int
  YearBuilt : Int
  YearUpdated : Int
  NumFloors : Int
  Basement : String
  Roof : String
  View : String
  ParkingType : String
  HeatingSources : String
  HeatingSystem : String
  Appliances : String
  FloorCovering : String
  Rooms : String
deriving Inhabited

/-- Result of the GetUpdatedPropertyDetails operation
(struct UpdatedPropertyDetails). -/
structure UpdatedPropertyDetails where
  XMLName : XmlName
  Request : UpdatedPropertyDetailsRequest
  Message : Message
  PageViewCountMonth : Int
  PageViewCountTotal : Int
  Address : Address
  Posting : Posting
  Price : Value
  HomeDetailsLink : String
  PhotoGalleryLink : String
  HomeInfoLink : String
  Images : Images
  EditedFacts : EditedFacts
  HomeDescriptions : String
  Neighborhood : String
  SchoolDistrict : String
  ElementarySchool : String
  MiddleSchool : String
deriving Inhabited

/-- Request for the GetRegionChildren operation
(struct RegionChildrenRequest). -/
structure RegionChildrenRequest where
  RegionId : String
  State : String
  Country : String
  City : String
  ChildType : String
deriving DecidableEq, Inhabited

/-- Region descriptor in a region-children response (struct Region). -/
structure Region where
  Id : String
  Name : String
  Country : String
  State : String
  County : String
  City : String
  CityUrl : String
  Latitude : String
  Longitude : String
  ZIndex : Value
  Url : String
deriving DecidableEq, Inhabited

/-- Result of the GetRegionChildren operation (struct RegionChildren). -/
structure RegionChildren where
  XMLName : XmlName
  Request : RegionChildrenRequest
  Message : Message
  Region : Zillow.Region
  SubRegionType : String
  Regions : List Zillow.Region
deriving Inhabited

/-- Request for the GetRateSummary operation
(struct RateSummaryRequest). -/
structure RateSummaryRequest where
  State : String
deriving DecidableEq, Inhabited

/-- One mortgage rate figure (struct Rate). -/
structure Rate where
  LoanType : String
  Count : Int
  Value : Float
deriving Inhabited

/-- Result of the GetRateSummary operation (struct RateSummary). -/
structure RateSummary where
  XMLName : XmlName
  Request : RateSummaryRequest
  Message : Message
  Today : List Rate
  LastWeek : List Rate
deriving Inhabited

/-- Request for the GetMonthlyPayments operation
(struct MonthlyPaymentsRequest). -/
structure MonthlyPaymentsRequest where
  Price : Int
  Down : Int
  DollarsDown : Int
  Zip : String
deriving DecidableEq, Inhabited

/-- One loan payment figure (struct Payment). -/
structure Payment where
  LoanType : String
  Rate : Float
  MonthlyPrincipalAndInterest : Int
  MonthlyMortgageInsurance : Int
deriving Inhabited

/-- Result of the GetMonthlyPayments operation
(struct MonthlyPayments). -/
structure MonthlyPayments where
  XMLName : XmlName
  Request : MonthlyPaymentsRequest
  Message : Message
  Payments : List Payment
  DownPayment : Int
  MonthlyPropertyTaxes : Int
  MonthlyHazardInsurance : Int
deriving Inhabited

/-- The fixed base URL constant (const baseUrl). -/
def baseUrl : String := "http://www.zillow.com/webservice/"

/-- Query parameter name constants, verbatim from the source const block.
Note the value of neighboorhoodParam: the source spells the key
neightborhood. -/
def zwsIdParam : String := "zws-Id"

def zpidParam : String := "zpid"

def rentzestimateParam : String := "rentzestimate"

def addressParam : String := "address"

def cityStateZipParam : String := "citystatezip"

def unitTypeParam : String := "unit-type"

def widthParam : String := "width"

def heightParam : String := "height"

def chartDurationParam : String := "chartDuration"

def countParam : String := "count"

def cityParam : String := "city"

def stateParam : String := "state"

def neighboorhoodParam : String := "neightborhood"

def zipParam : String := "zip"

def countryParam : String := "country"

def childTypeParam : String := "childtype"

def regionIdParam : String := "regionId"

def priceParam : String := "price"

def downParam : String := "down"

def dollarsDownParam : String := "dollarsdown"

/-- Operation path constants, verbatim from the source const block. -/
def zestimatePath : String := "Zestimate"

def searchResultsPath : String := "SearchResults"

def chartPath : String := "Chart"

def compsPath : String := "Comps"

def deepCompsPath : String := "DeepComps"

def deepSearchPath : String := "DeepSearchResults"

def updatedPropertyDetailsPath : String := "UpdatedPropertyDetails"

def regionChildrenPath : String := "RegionChildren"

def regionChartPath : String := "RegionChart"

def rateSummaryPath : String := "RateSummary"

def monthlyPaymentsPath : String := "MonthlyPayments"

/-- The client state (struct zillow): the application id and the base
url, both set at construction and only ever read. -/
structure zillow where
  zwsId : String
  url : String
deriving DecidableEq, Inhabited

/-- Constructor NewZillow: client with the given id and the fixed base
url. -/
def NewZillow (zwsId : String) : zillow := ⟨zwsId, baseUrl⟩

/-- The URL built inside the get method of the source:
z.url + "/Get" + path + ".htm?" + values.Encode(). -/
def requestUrl (z : zillow) (path : String) (values : Values) : String :=
  z.url ++ "/Get" ++ path ++ ".htm?" ++ Values.encode values

/-- The shared get method: issue the GET for the constructed URL; a
transport error is returned as is; otherwise the body is decoded, and a
decoder error is returned as is; otherwise the decoded result.  The
status code of a delivered response is never inspected, exactly as in the
source. -/
def zillow.get {α : Type} (z : zillow) (path : String) (values : Values)
    (transport : String → TransportResult) (dec : String → Except String α) :
    Except GoError α :=
  match transport (requestUrl z path values) with
  | .error e => .error (GoError.transportErr e)
  | .ok resp =>
    match dec resp.body with
    | .error e => .error (GoError.decodeErr e)
    | .ok result => .ok result

/-- The url.Values literal built by GetZestimate. -/
def zestimateValues (z : zillow) (request : ZestimateRequest) : Values :=
  [(zwsIdParam, [z.zwsId]),
   (zpidParam, [request.Zpid]),
   (rentzestimateParam, [formatBool request.Rentzestimate])]

/-- The url.Values literal built by GetSearchResults and
GetDeepSearchResults. -/
def searchResultsValues (z : zillow) (request : SearchRequest) : Values :=
  [(zwsIdParam, [z.zwsId]),
   (addressParam, [request.Address]),
   (cityStateZipParam, [request.CityStateZip]),
   (rentzestimateParam, [formatBool request.Rentzestimate])]

/-- The url.Values literal built by GetChart. -/
def chartValues (z : zillow) (request : ChartRequest) : Values :=
  [(zwsIdParam, [z.zwsId]),
   (zpidParam, [request.Zpid]),
   (unitTypeParam, [request.UnitType]),
   (widthParam, [itoa request.Width]),
   (heightParam, [itoa request.Height]),
   (chartDurationParam, [request.Duration])]

/-- The url.Values literal built by GetComps and GetDeepComps. -/
def compsValues (z : zillow) (request : CompsRequest) : Values :=
  [(zwsIdParam, [z.zwsId]),
   (zpidParam, [request.Zpid]),
   (countParam, [itoa request.Count]),
   (rentzestimateParam, [formatBool request.Rentzestimate])]

/-- The url.Values literal built by GetUpdatedPropertyDetails. -/
def updatedPropertyDetailsValues (z : zillow) (request : UpdatedPropertyDetailsRequest) : Values :=
  [(zwsIdParam, [z.zwsId]),
   (zpidParam, [request.Zpid])]

/-- The url.Values literal built by GetRegionChildren. -/
def regionChildrenValues (z : zillow) (request : RegionChildrenRequest) : Values :=
  [(zwsIdParam, [z.zwsId]),
   (regionIdParam, [request.RegionId]),
   (stateParam, [request.State]),
   (countryParam, [request.Country]),
   (cityParam, [request.City]),
   (childTypeParam, [request.ChildType])]

/-- The url.Values literal built by GetRegionChart: the Neighborhood
field is sent under neighboorhoodParam, whose value is the misspelled
key neightborhood. -/
def regionChartValues (z : zillow) (request : RegionChartRequest) : Values :=
  [(zwsIdParam, [z.zwsId]),
   (cityParam, [request.City]),
   (stateParam, [request.State]),
   (neighboorhoodParam, [request.Neighborhood]),
   (zipParam, [request.Zipcode]),
   (unitTypeParam, [request.UnitType]),
   (widthParam, [itoa request.Width]),
   (heightParam, [itoa request.Height]),
   (chartDurationParam, [request.ChartDuration])]

/-- The url.Values literal built by GetRateSummary. -/
def rateSummaryValues (z : zillow) (request : RateSummaryRequest) : Values :=
  [(zwsIdParam, [z.zwsId]),
   (stateParam, [request.State])]

/-- The url.Values literal built by GetMonthlyPayments. -/
def monthlyPaymentsValues (z : zillow) (request : MonthlyPaymentsRequest) : Values :=
  [(zwsIdParam, [z.zwsId]),
   (priceParam, [itoa request.Price]),
   (downParam, [itoa request.Down]),
   (dollarsDownParam, [itoa request.DollarsDown]),
   (zipParam, [request.Zip])]

/-- Operation GetZestimate: build the values, run get, and return either
the decoded result with nil error or nil result with the error, as the
pair (result pointer, error). -/
def GetZestimate (z : zillow) (request : ZestimateRequest)
    (transport : String → TransportResult)
    (dec : String → Except String ZestimateResult) :
    Option ZestimateResult × Option GoError :=
  match z.get zestimatePath (zestimateValues z request) transport dec with
  | .error e => (none, some e)
  | .ok result => (some result, none)

/-- Operation GetSearchResults. -/
def GetSearchResults (z : zillow) (request : SearchRequest)
    (transport : String → TransportResult)
    (dec : String → Except String SearchResults) :
    Option SearchResults × Option GoError :=
  match z.get searchResultsPath (searchResultsValues z request) transport dec with
  | .error e => (none, some e)
  | .ok result => (some result, none)

/-- Operation GetChart. -/
def GetChart (z : zillow) (request : ChartRequest)
    (transport : String → TransportResult)
    (dec : String → Except String ChartResult) :
    Option ChartResult × Option GoError :=
  match z.get chartPath (chartValues z request) transport dec with
  | .error e => (none, some e)
  | .ok result => (some result, none)

/-- Operation GetComps. -/
def GetComps (z : zillow) (request : CompsRequest)
    (transport : String → TransportResult)
    (dec : String → Except String CompsResult) :
    Option CompsResult × Option GoError :=
  match z.get compsPath (compsValues z request) transport dec with
  | .error e => (none, some e)
  | .ok result => (some result, none)

/-- Operation GetDeepComps. -/
def GetDeepComps (z : zillow) (request : CompsRequest)
    (transport : String → TransportResult)
    (dec : String → Except String DeepCompsResult) :
    Option DeepCompsResult × Option GoError :=
  match z.get deepCompsPath (compsValues z request) transport dec with
  | .error e => (none, some e)
  | .ok result => (some result, none)

/-- Operation GetDeepSearchResults. -/
def GetDeepSearchResults (z : zillow) (request : SearchRequest)
    (transport : String → TransportResult)
    (dec : String → Except String DeepSearchResults) :
    Option DeepSearchResults × Option GoError :=
  match z.get deepSearchPath (searchResultsValues z request) transport dec with
  | .error e => (none, some e)
  | .ok result => (some result, none)

/-- Operation GetUpdatedPropertyDetails. -/
def GetUpdatedPropertyDetails (z : zillow) (request : UpdatedPropertyDetailsRequest)
    (transport : String → TransportResult)
    (dec : String → Except String UpdatedPropertyDetails) :
    Option UpdatedPropertyDetails × Option GoError :=
  match z.get updatedPropertyDetailsPath (updatedPropertyDetailsValues z request) transport dec with
  | .error e => (none, some e)
  | .ok result => (some result, none)

/-- Operation GetRegionChildren. -/
def GetRegionChildren (z : zillow) (request : RegionChildrenRequest)
    (transport : String → TransportResult)
    (dec : String → Except String RegionChildren) :
    Option RegionChildren × Option GoError :=
  match z.get regionChildrenPath (regionChildrenValues z request) transport dec with
  | .error e => (none, some e)
  | .ok result => (some result, none)

/-- Operation GetRegionChart. -/
def GetRegionChart (z : zillow) (request : RegionChartRequest)
    (transport : String → TransportResult)
    (dec : String → Except String RegionChartResult) :
    Option RegionChartResult × Option GoError :=
  match z.get regionChartPath (regionChartValues z request) transport dec with
  | .error e => (none, some e)
  | .ok result => (some result, none)

/-- Operation GetRateSummary. -/
def GetRateSummary (z : zillow) (request : RateSummaryRequest)
    (transport : String → TransportResult)
    (dec : String → Except String RateSummary) :
    Option RateSummary × Option GoError :=
  match z.get rateSummaryPath (rateSummaryValues z request) transport dec with
  | .error e => (none, some e)
  | .ok result => (some result, none)

/-- Operation GetMonthlyPayments. -/
def GetMonthlyPayments (z : zillow) (request : MonthlyPaymentsRequest)
    (transport : String → TransportResult)
    (dec : String → Except String MonthlyPayments) :
    Option MonthlyPayments × Option GoError :=
  match z.get monthlyPaymentsPath (monthlyPaymentsValues z request) transport dec with
  | .error e => (none, some e)
  | .ok result => (some result, none)

/-- An XML element: name, attributes, child elements, and the character
data directly inside it.  This is the document form consumed by the model
of the encoding/xml tag-driven decoder below. -/
inductive XmlElem where
  | mk (name : String) (attrs : List (String × String)) (children : List XmlElem) (text : String)

/-- Element name. -/
def XmlElem.name : XmlElem → String
  | ⟨n, _, _, _⟩ => n

/-- Element attributes. -/
def XmlElem.attrs : XmlElem → List (String × String)
  | ⟨_, a, _, _⟩ => a

/-- Child elements. -/
def XmlElem.children : XmlElem → List XmlElem
  | ⟨_, _, c, _⟩ => c

/-- Character data directly inside the element. -/
def XmlElem.text : XmlElem → String
  | ⟨_, _, _, t⟩ => t

/-- True for the whitespace characters the parser skips. -/
def isSpace (c : Char) : Bool :=
  c = ' ' || c = '\n' || c = '\t' || c = '\r'

/-- Drop leading whitespace. -/
def dropWs : List Char → List Char
  | [] => []
  | c :: cs => if isSpace c then dropWs cs else c :: cs

/-- True for the characters accepted in element and attribute names. -/
def isNameChar (c : Char) : Bool :=
  c.isAlpha || c.isDigit || c = '-' || c = '_' || c = ':' || c = '.'

/-- Split off the longest leading run of name characters. -/
def takeName : List Char → List Char × List Char
  | [] => ([], [])
  | c :: cs =>
    if isNameChar c then
      let (n, rest) := takeName cs
      (c :: n, rest)
    else ([], c :: cs)

/-- Read the characters of a double-quoted attribute value up to the
closing quote; truncated input is a syntax error. -/
def takeUntilQuote : List Char → Except String (List Char × List Char)
  | [] => .error "XML syntax error: unexpected EOF in attribute value"
  | c :: cs =>
    if c = '"' then .ok ([], cs)
    else do
      let (v, rest) ← takeUntilQuote cs
      .ok (c :: v, rest)

/-- Parse the attribute list of a start tag, stopping before the closing
bracket or the slash of a self-closing tag. -/
def parseAttrs : Nat → List Char → Except String (List (String × String) × List Char)
  | 0, _ => .error "XML syntax error: tag too long"
  | fuel + 1, cs =>
    match dropWs cs with
    | [] => .error "XML syntax error: unexpected EOF in tag"
    | c :: rest =>
      if c = '>' ∨ c = '/' then .ok ([], c :: rest)
      else
        match takeName (c :: rest) with
        | ([], _) => .error "XML syntax error: expected attribute name"
        | (n, rest2) =>
          match rest2 with
          | '=' :: '"' :: rest3 => do
            let (v, rest4) ← takeUntilQuote rest3
            let (more, rest5) ← parseAttrs fuel rest4
            .ok ((String.mk n, String.mk v) :: more, rest5)
          | _ => .error "XML syntax error: expected attribute value"

mutual

/-- Parse one element starting at an opening bracket: start tag with
attributes, then either a self-closing slash or content followed by the
matching end tag.  Truncated or mismatched input is a syntax error. -/
def parseElem : Nat → List Char → Except String (XmlElem × List Char)
  | 0, _ => .error "XML syntax error: document too deep"
  | fuel + 1, cs =>
    match cs with
    | '<' :: cs1 =>
      match takeName cs1 with
      | ([], _) => .error "XML syntax error: expected element name"
      | (nameChars, cs2) => do
        let name := String.mk nameChars
        let (attrs, cs3) ← parseAttrs (fuel + 1) cs2
        match dropWs cs3 with
        | '/' :: '>' :: cs4 => .ok (⟨name, attrs, [], ""⟩, cs4)
        | '>' :: cs4 => do
          let (text, children, cs5) ← parseContent fuel cs4
          match cs5 with
          | '<' :: '/' :: cs6 =>
            match takeName cs6 with
            | (endName, cs7) =>
              if String.mk endName = name then
                match dropWs cs7 with
                | '>' :: cs8 => .ok (⟨name, attrs, children, text⟩, cs8)
                | _ => .error "XML syntax error: malformed end tag"
              else .error ("XML syntax error: mismatched end tag " ++ String.mk endName)
          | _ => .error "XML syntax error: unexpected EOF"
        | _ => .error "XML syntax error: malformed start tag"
    | _ => .error "XML syntax error: expected start tag"

/-- Parse element content up to the next end tag: interleaved character
data and child elements.  Reaching the end of input before the end tag is
a syntax error (a truncated document). -/
def parseContent : Nat → List Char → Except String (String × List XmlElem × List Char)
  | 0, _ => .error "XML syntax error: document too long"
  | fuel + 1, cs =>
    match cs with
    | [] => .error "XML syntax error: unexpected EOF"
    | '<' :: '/' :: rest => .ok ("", [], '<' :: '/' :: rest)
    | '<' :: rest => do
      let (child, cs2) ← parseElem fuel ('<' :: rest)
      let (text, children, cs3) ← parseContent fuel cs2
      .ok (text, child :: children, cs3)
    | c :: rest => do
      let (text, children, cs2) ← parseContent fuel rest
      .ok (String.mk (c :: text.data), children, cs2)

end

/-- Skip an XML declaration of the form found at the top of the service
responses, up to and including its closing bracket. -/
def skipProlog : Nat → List Char → Except String (List Char)
  | 0, _ => .error "XML syntax error: unexpected EOF in prolog"
  | fuel + 1, cs =>
    match cs with
    | [] => .error "XML syntax error: unexpected EOF in prolog"
    | '?' :: '>' :: rest => .ok rest
    | _ :: rest => skipProlog fuel rest

/-- Parse a response body into its document element.  Models the xml
decoder reading the body: leading whitespace and an optional XML
declaration are skipped, then one element is read; ill-formed or
truncated input yields an error. -/
def parseXml (s : String) : Except String XmlElem := do
  let cs := dropWs s.data
  let cs ← match cs with
    | '<' :: '?' :: rest => skipProlog (rest.length + 1) rest
    | _ => pure cs
  let cs := dropWs cs
  let (root, _) ← parseElem (2 * cs.length + 4) cs
  .ok root

/-- First child element with the given name. -/
def findChild (e : XmlElem) (n : String) : Option XmlElem :=
  e.children.find? (fun c => c.name == n)

/-- Follow a chain of child element names, as written a>b in the struct
tags. -/
def childPath (e : XmlElem) : List String → Option XmlElem
  | [] => some e
  | n :: ns =>
    match findChild e n with
    | some c => childPath c ns
    | none => none

/-- All children named n of the element reached by a path; empty when the
path is absent (the decoded slice stays empty). -/
def childrenPath (e : XmlElem) (path : List String) (n : String) : List XmlElem :=
  match childPath e path with
  | some p => p.children.filter (fun c => c.name == n)
  | none => []

/-- Character data of the element at a path; an absent element leaves the
string field at its zero value, the empty string. -/
def textAt (e : XmlElem) (path : List String) : String :=
  match childPath e path with
  | some c => c.text
  | none => ""

/-- An attribute value; an absent attribute leaves the field at its zero
value. -/
def attrText (e : XmlElem) (n : String) : String :=
  match e.attrs.find? (fun p => p.1 == n) with
  | some p => p.2
  | none => ""

/-- Digits of a decimal numeral folded into a value, rejecting any other
character. -/
def parseDigitsAux : List Char → Nat → Option Nat
  | [], acc => some acc
  | c :: cs, acc =>
    if c.isDigit then parseDigitsAux cs (acc * 10 + (c.toNat - 48)) else none

/-- Model of strconv.ParseInt base 10 as used by the xml decoder for int
fields: optional sign, then one or more digits; anything else, including
the empty string, is an error. -/
def parseGoInt (s : String) : Except String Int :=
  match s.data with
  | [] => .error "strconv.ParseInt: parsing empty string: invalid syntax"
  | '+' :: cs =>
    match cs, parseDigitsAux cs 0 with
    | _ :: _, some n => .ok (Int.ofNat n)
    | _, _ => .error ("strconv.ParseInt: invalid syntax: " ++ s)
  | '-' :: cs =>
    match cs, parseDigitsAux cs 0 with
    | _ :: _, some n => .ok (-(Int.ofNat n))
    | _, _ => .error ("strconv.ParseInt: invalid syntax: " ++ s)
  | cs =>
    match parseDigitsAux cs 0 with
    | some n => .ok (Int.ofNat n)
    | none => .error ("strconv.ParseInt: invalid syntax: " ++ s)

/-- Model of strconv.ParseBool as used by the xml decoder for bool
fields. -/
def parseGoBool (s : String) : Except String Bool :=
  if s = "1" ∨ s = "t" ∨ s = "T" ∨ s = "true" ∨ s = "TRUE" ∨ s = "True" then .ok true
  else if s = "0" ∨ s = "f" ∨ s = "F" ∨ s = "false" ∨ s = "FALSE" ∨ s = "False" then .ok false
  else .error ("strconv.ParseBool: invalid syntax: " ++ s)

/-- Model of strconv.ParseFloat for the plain decimal numerals appearing
in the service responses: optional sign, digits, optional fraction.  The
value is built with scientific notation over the read digits. -/
def parseGoFloat (s : String) : Except String Float :=
  let core : List Char → Except String Float := fun cs =>
    match cs.span Char.isDigit with
    | (intPart, rest) =>
      match rest with
      | [] =>
        match intPart, parseDigitsAux intPart 0 with
        | _ :: _, some n => .ok (Float.ofScientific n false 0)
        | _, _ => .error ("strconv.ParseFloat: invalid syntax: " ++ s)
      | '.' :: fracPart =>
        match parseDigitsAux intPart 0, fracPart, parseDigitsAux fracPart 0 with
        | some hi, _ :: _, some lo =>
          .ok (Float.ofScientific (hi * 10 ^ fracPart.length + lo) true fracPart.length)
        | _, _, _ => .error ("strconv.ParseFloat: invalid syntax: " ++ s)
      | _ => .error ("strconv.ParseFloat: invalid syntax: " ++ s)
  match s.data with
  | '-' :: cs => do
    let f ← core cs
    .ok (-f)
  | '+' :: cs => core cs
  | cs => core cs

/-- Int field from the character data at a path: an absent element keeps
the zero value, a present element must parse. -/
def intAt (e : XmlElem) (path : List String) : Except String Int :=
  match childPath e path with
  | none => .ok 0
  | some c => parseGoInt c.text

/-- Bool field from the character data at a path. -/
def boolAt (e : XmlElem) (path : List String) : Except String Bool :=
  match childPath e path with
  | none => .ok false
  | some c => parseGoBool c.text

/-- Float field from the character data at a path. -/
def floatAt (e : XmlElem) (path : List String) : Except String Float :=
  match childPath e path with
  | none => .ok (Float.ofScientific 0 false 0)
  | some c => parseGoFloat c.text

/-- Int field from an attribute: an absent attribute keeps the zero
value, a present one must parse. -/
def intAttrOf (e : XmlElem) (n : String) : Except String Int :=
  match e.attrs.find? (fun p => p.1 == n) with
  | none => .ok 0
  | some p => parseGoInt p.2

/-- Decode a Message from its element; an absent element keeps the zero
value (tags text, code, limit-warning). -/
def decodeMessageOpt : Option XmlElem → Except String Message
  | none => .ok ⟨"", 0, false⟩
  | some e => do
    let code ← intAt e ["code"]
    let lw ← boolAt e ["limit-warning"]
    .ok ⟨textAt e ["text"], code, lw⟩

/-- Decode a Value from its element (attr currency, chardata int). -/
def decodeValueOpt : Option XmlElem → Except String Value
  | none => .ok ⟨"", 0⟩
  | some e => do
    let v ← parseGoInt e.text
    .ok ⟨attrText e "currency", v⟩

/-- Decode a ValueChange (attrs duration and currency, chardata int). -/
def decodeValueChangeOpt : Option XmlElem → Except String ValueChange
  | none => .ok ⟨0, "", 0⟩
  | some e => do
    let d ← intAttrOf e "duration"
    let v ← parseGoInt e.text
    .ok ⟨d, attrText e "currency", v⟩

/-- Decode a Zestimate (tags amount, last-updated, valueChange,
valuationRange with low and high, percentile). -/
def decodeZestimateOpt : Option XmlElem → Except String Zestimate
  | none => .ok ⟨⟨"", 0⟩, "", ⟨0, "", 0⟩, ⟨"", 0⟩, ⟨"", 0⟩, ""⟩
  | some e => do
    let amount ← decodeValueOpt (findChild e "amount")
    let vc ← decodeValueChangeOpt (findChild e "valueChange")
    let low ← decodeValueOpt (childPath e ["valuationRange", "low"])
    let high ← decodeValueOpt (childPath e ["valuationRange", "high"])
    .ok ⟨amount, textAt e ["last-updated"], vc, low, high, textAt e ["percentile"]⟩

/-- Decode a Links set (tags homedetails, graphsanddata, mapthishome,
myzestimator, comparables); the XMLName picks up the element name. -/
def decodeLinksOpt : Option XmlElem → Except String Links
  | none => .ok ⟨⟨"", ""⟩, "", "", "", "", ""⟩
  | some e =>
    .ok ⟨⟨"", e.name⟩, textAt e ["homedetails"], textAt e ["graphsanddata"],
         textAt e ["mapthishome"], textAt e ["myzestimator"], textAt e ["comparables"]⟩

/-- Decode an Address (tags street, zipcode, city, state, latitude,
longitude); absent elements keep zero values. -/
def decodeAddressOpt : Option XmlElem → Address
  | none => ⟨"", "", "", "", "", ""⟩
  | some e =>
    ⟨textAt e ["street"], textAt e ["zipcode"], textAt e ["city"],
     textAt e ["state"], textAt e ["latitude"], textAt e ["longitude"]⟩

/-- Decode one RealEstateRegion (attrs id, type, name; tags zindexValue,
zindexOneYearChange, links with overview, forSaleByOwner, forSale). -/
def decodeRealEstateRegion (e : XmlElem) : Except String RealEstateRegion := do
  let zc ← floatAt e ["zindexOneYearChange"]
  .ok ⟨⟨"", e.name⟩, attrText e "id", attrText e "type", attrText e "name",
       textAt e ["zindexValue"], zc,
       textAt e ["links", "overview"], textAt e ["links", "forSaleByOwner"],
       textAt e ["links", "forSale"]⟩

/-- Decode the echoed ZestimateRequest (tags zpid, rentzestimate). -/
def decodeZestimateRequest : Option XmlElem → Except String ZestimateRequest
  | none => .ok ⟨"", false⟩
  | some e => do
    let r ← boolAt e ["rentzestimate"]
    .ok ⟨textAt e ["zpid"], r⟩

/-- Decode a GetZestimate response body into a ZestimateResult: parse the
XML, require the document element zestimate, and map each field through
its struct tag path, every field left at its Go zero value when its
element is absent. -/
def decodeZestimateResult (body : String) : Except String ZestimateResult := do
  let doc ← parseXml body
  if doc.name = "zestimate" then do
    let req ← decodeZestimateRequest (findChild doc "request")
    let msg ← decodeMessageOpt (findChild doc "message")
    let links ← decodeLinksOpt (childPath doc ["response", "links"])
    let zest ← decodeZestimateOpt (childPath doc ["response", "zestimate"])
    let regions ← (childrenPath doc ["response", "localRealEstate"] "region").mapM decodeRealEstateRegion
    .ok ⟨⟨"", doc.name⟩, req, msg, links,
         decodeAddressOpt (childPath doc ["response", "address"]),
         zest, regions,
         textAt doc ["response", "regions", "zipcode-id"],
         textAt doc ["response", "regions", "city-id"],
         textAt doc ["response", "regions", "county-id"],
         textAt doc ["response", "regions", "state-id"]⟩
  else .error ("expected element type zestimate but have " ++ doc.name)

/-
State-passing forms of the operations.  Go passes the request into each
method by value and the methods have a pointer receiver; the bodies
contain no assignment to the receiver fields or to the request, so the
explicit-state translation of each method returns the receiver and the
request unchanged alongside the ordinary return values.
-/

/-- GetZestimate with the final client state and request made explicit. -/
def GetZestimateSt (z : zillow) (request : ZestimateRequest)
    (transport : String → TransportResult)
    (dec : String → Except String ZestimateResult) :
    (Option ZestimateResult × Option GoError) × zillow × ZestimateRequest :=
  (GetZestimate z request transport dec, z, request)

/-- GetSearchResults with the final state made explicit. -/
def GetSearchResultsSt (z : zillow) (request : SearchRequest)
    (transport : String → TransportResult)
    (dec : String → Except String SearchResults) :
    (Option SearchResults × Option GoError) × zillow × SearchRequest :=
  (GetSearchResults z request transport dec, z, request)

/-- GetChart with the final state made explicit. -/
def GetChartSt (z : zillow) (request : ChartRequest)
    (transport : String → TransportResult)
    (dec : String → Except String ChartResult) :
    (Option ChartResult × Option GoError) × zillow × ChartRequest :=
  (GetChart z request transport dec, z, request)

/-- GetComps with the final state made explicit. -/
def GetCompsSt (z : zillow) (request : CompsRequest)
    (transport : String → TransportResult)
    (dec : String → Except String CompsResult) :
    (Option CompsResult × Option GoError) × zillow × CompsRequest :=
  (GetComps z request transport dec, z, request)

/-- GetDeepComps with the final state made explicit. -/
def GetDeepCompsSt (z : zillow) (request : CompsRequest)
    (transport : String → TransportResult)
    (dec : String → Except String DeepCompsResult) :
    (Option DeepCompsResult × Option GoError) × zillow × CompsRequest :=
  (GetDeepComps z request transport dec, z, request)

/-- GetDeepSearchResults with the final state made explicit. -/
def GetDeepSearchResultsSt (z : zillow) (request : SearchRequest)
    (transport : String → TransportResult)
    (dec : String → Except String DeepSearchResults) :
    (Option DeepSearchResults × Option GoError) × zillow × SearchRequest :=
  (GetDeepSearchResults z request transport dec, z, request)

/-- GetUpdatedPropertyDetails with the final state made explicit. -/
def GetUpdatedPropertyDetailsSt (z : zillow) (request : UpdatedPropertyDetailsRequest)
    (transport : String → TransportResult)
    (dec : String → Except String UpdatedPropertyDetails) :
    (Option UpdatedPropertyDetails × Option GoError) × zillow × UpdatedPropertyDetailsRequest :=
  (GetUpdatedPropertyDetails z request transport dec, z, request)

/-- GetRegionChildren with the final state made explicit. -/
def GetRegionChildrenSt (z : zillow) (request : RegionChildrenRequest)
    (transport : String → TransportResult)
    (dec : String → Except String RegionChildren) :
    (Option RegionChildren × Option GoError) × zillow × RegionChildrenRequest :=
  (GetRegionChildren z request transport dec, z, request)

/-- GetRegionChart with the final state made explicit. -/
def GetRegionChartSt (z : zillow) (request : RegionChartRequest)
    (transport : String → TransportResult)
    (dec : String → Except String RegionChartResult) :
    (Option RegionChartResult × Option GoError) × zillow × RegionChartRequest :=
  (GetRegionChart z request transport dec, z, request)

/-- GetRateSummary with the final state made explicit. -/
def GetRateSummarySt (z : zillow) (request : RateSummaryRequest)
    (transport : String → TransportResult)
    (dec : String → Except String RateSummary) :
    (Option RateSummary × Option GoError) × zillow × RateSummaryRequest :=
  (GetRateSummary z request transport dec, z, request)

/-- GetMonthlyPayments with the final state made explicit. -/
def GetMonthlyPaymentsSt (z : zillow) (request : MonthlyPaymentsRequest)
    (transport : String → TransportResult)
    (dec : String → Except String MonthlyPayments) :
    (Option MonthlyPayments × Option GoError) × zillow × MonthlyPaymentsRequest :=
  (GetMonthlyPayments z request transport dec, z, request)

/-- A transport that always delivers the given status and body (a
reachable server). -/
def constTransport (status : Nat) (body : String) : String → TransportResult :=
  fun _ => Except.ok ⟨status, body⟩

/-- A transport that always fails (an unreachable server): http.Get
returns the error. -/
def failTransport (e : String) : String → TransportResult :=
  fun _ => Except.error e

/-- A test client, as in the test suite. -/
def zTest : zillow := NewZillow "test-id"

/-- The property id used throughout the test suite. -/
def zpidTest : String := "48749425"

/-- A concrete GetZestimate request for the test property. -/
def zestimateRequestTest : ZestimateRequest := ⟨zpidTest, false⟩

/-- A concrete GetRegionChart request exercising every field, including
the neighborhood. -/
def regionChartRequestTest : RegionChartRequest :=
  ⟨"lacey", "WA", "East Queen Anne", "98109", "percent", 300, 150, "1year"⟩

/-- Modelled from the spec: the testdata Zestimate XML fixture is not
under src, so its content is modelled from the specification, which
describes a valuation fixture for property id 48749425 returning address
2114 Bigelow Ave N, zipcode 98109, and an estimated value of 1219500
USD (the expected values also appear verbatim in zillow_test.go). -/
def zestimateFixture : String :=
  "<zestimate><request><zpid>48749425</zpid></request><message><text>Request successfully processed</text><code>0</code></message><response><address><street>2114 Bigelow Ave N</street><zipcode>98109</zipcode><city>Seattle</city><state>WA</state></address><zestimate><amount currency=\"USD\">1219500</amount></zestimate></response></zestimate>"

/-- The ZestimateResult decoded from the fixture. -/
def zestimateFixtureResult : ZestimateResult :=
  match decodeZestimateResult zestimateFixture with
  | .ok r => r
  | .error _ => default

/-- Modelled from the spec: a well-formed response body whose Message
carries a non-zero code with accompanying text, the error form the
service uses for a rejected application id. -/
def zestimateErrorFixture : String :=
  "<zestimate><message><text>Error: invalid or missing ZWSID parameter</text><code>2</code></message></zestimate>"

/-- The ZestimateResult decoded from the service-error fixture. -/
def zestimateErrorResult : ZestimateResult :=
  match decodeZestimateResult zestimateErrorFixture with
  | .ok r => r
  | .error _ => default

/-- A truncated response body: the document breaks off inside a tag. -/
def truncatedFixture : String := "<zestimate><messa"

/-- The decode error produced for the truncated body. -/
def truncatedErrMsg : String :=
  match decodeZestimateResult truncatedFixture with
  | .error e => e
  | .ok _ => ""

/-- A minimal well-formed body: the document element and nothing else;
every field decodes to its zero value. -/
def emptyZestimateBody : String := "<zestimate></zestimate>"

/-- The ZestimateResult decoded from the minimal body. -/
def emptyZestimateResult : ZestimateResult :=
  match decodeZestimateResult emptyZestimateBody with
  | .ok r => r
  | .error _ => default

/-- Key order between two query pairs: the first key is at most the
second in Go string order. -/
def keyLe (p q : String × List String) : Prop := goStringLe p.1 q.1 = true

/-
Helper lemmas shared by the claim theorems.
-/

/-- Byte-wise string comparison is total. -/
theorem charListLe_total : ∀ (a b : List Char), charListLe a b = true ∨ charListLe b a = true
  | [], _ => Or.inl rfl
  | _ :: _, [] => Or.inr rfl
  | a :: as, b :: bs => by
    rcases Nat.lt_trichotomy a.toNat b.toNat with h | h | h
    · left; simp [charListLe, h]
    · have h1 : ¬ a.toNat < b.toNat := by omega
      have h2 : ¬ b.toNat < a.toNat := by omega
      rcases charListLe_total as bs with hr | hr
      · left; simp [charListLe, h1, h2, hr]
      · right; simp [charListLe, h1, h2, hr]
    · right; simp [charListLe, h]

/-- Inserting a pair into a key-sorted list keeps adjacent keys in
order. -/
theorem chain'_insertPair (p : String × List String) (l : Values)
    (h : List.Chain' keyLe l) : List.Chain' keyLe (insertPair p l) := by
  induction l with
  | nil => simp [insertPair]
  | cons q rest ih =>
    by_cases hpq : goStringLe p.1 q.1 = true
    · rw [insertPair, if_pos hpq]
      exact List.chain'_cons.mpr ⟨hpq, h⟩
    · have hqp : keyLe q p := by
        rcases charListLe_total p.1.data q.1.data with ht | ht
        · exact absurd ht hpq
        · exact ht
      rw [insertPair, if_neg hpq]
      cases rest with
      | nil =>
        rw [insertPair]
        exact List.chain'_cons.mpr ⟨hqp, List.chain'_singleton _⟩
      | cons r rest2 =>
        have hqr : keyLe q r := (List.chain'_cons.mp h).1
        have h2 : List.Chain' keyLe (r :: rest2) := (List.chain'_cons.mp h).2
        have ih2 := ih h2
        by_cases hpr : goStringLe p.1 r.1 = true
        · rw [insertPair, if_pos hpr] at ih2 ⊢
          exact List.chain'_cons.mpr ⟨hqp, ih2⟩
        · rw [insertPair, if_neg hpr] at ih2 ⊢
          exact List.chain'_cons.mpr ⟨hqr, ih2⟩

/-- The key sort used by Values.encode produces a list whose adjacent
keys are in Go string order. -/
theorem chain'_sortByKey (v : Values) : List.Chain' keyLe (sortByKey v) := by
  induction v with
  | nil => exact List.chain'_nil
  | cons p rest ih => exact chain'_insertPair p _ ih

/-- Splitting the leading slash off the Get-prefixed path segment. -/
theorem urlShift (u p s opName : String) (h : "/Get" ++ p = "/" ++ opName) :
    u ++ "/Get" ++ p ++ s = u ++ "/" ++ opName ++ s := by
  rw [String.append_assoc u "/Get" p, h, ← String.append_assoc u "/" opName]

/-- The error-or-result pair built by every operation from the outcome of
get is exclusively one of the two shapes. -/
theorem exceptPair_shape {α : Type} (res : Except GoError α) :
    (∃ r, (match res with
           | Except.error e => ((none : Option α), some e)
           | Except.ok result => (some result, none)) = (some r, none)) ∨
    (∃ e, (match res with
           | Except.error e => ((none : Option α), some e)
           | Except.ok result => (some result, none)) = (none, some e)) := by
  cases res with
  | error e => exact Or.inr ⟨e, rfl⟩
  | ok r => exact Or.inl ⟨r, rfl⟩

/-- When the transport delivers a response and the decoder accepts the
body, get returns the decoded result. -/
theorem get_ok_decode {α : Type} (z : zillow) (path : String) (values : Values)
    (transport : String → TransportResult) (dec : String → Except String α)
    (status : Nat) (body : String) (r : α)
    (h1 : transport (requestUrl z path values) = Except.ok ⟨status, body⟩)
    (h2 : dec body = Except.ok r) :
    zillow.get z path values transport dec = Except.ok r := by
  simp [zillow.get, h1, h2]

/-- When the transport delivers a response and the decoder rejects the
body, get returns the decode error. -/
theorem get_decode_fail {α : Type} (z : zillow) (path : String) (values : Values)
    (transport : String → TransportResult) (dec : String → Except String α)
    (status : Nat) (body : String) (e : String)
    (h1 : transport (requestUrl z path values) = Except.ok ⟨status, body⟩)
    (h2 : dec body = Except.error e) :
    zillow.get z path values transport dec = Except.error (GoError.decodeErr e) := by
  simp [zillow.get, h1, h2]

/-- C3: Every operation returns exactly one of two outcomes: a non-nil
decoded Result with a nil error, or a nil Result with a non-nil error;
never a partially populated Result together with an error. -/
theorem every_operation_exclusive_result_or_error :
    (∀ (z : zillow) (req : ZestimateRequest) (tr : String → TransportResult)
       (dec : String → Except String ZestimateResult),
       (∃ r, GetZestimate z req tr dec = (some r, none)) ∨
       (∃ e, GetZestimate z req tr dec = (none, some e))) ∧
    (∀ (z : zillow) (req : SearchRequest) (tr : String → TransportResult)
       (dec : String → Except String SearchResults),
       (∃ r, GetSearchResults z req tr dec = (some r, none)) ∨
       (∃ e, GetSearchResults z req tr dec = (none, some e))) ∧
    (∀ (z : zillow) (req : ChartRequest) (tr : String → TransportResult)
       (dec : String → Except String ChartResult),
       (∃ r, GetChart z req tr dec = (some r, none)) ∨
       (∃ e, GetChart z req tr dec = (none, some e))) ∧
    (∀ (z : zillow) (req : CompsRequest) (tr : String → TransportResult)
       (dec : String → Except String CompsResult),
       (∃ r, GetComps z req tr dec = (some r, none)) ∨
       (∃ e, GetComps z req tr dec = (none, some e))) ∧
    (∀ (z : zillow) (req : CompsRequest) (tr : String → TransportResult)
       (dec : String → Except String DeepCompsResult),
       (∃ r, GetDeepComps z req tr dec = (some r, none)) ∨
       (∃ e, GetDeepComps z req tr dec = (none, some e))) ∧
    (∀ (z : zillow) (req : SearchRequest) (tr : String → TransportResult)
       (dec : String → Except String DeepSearchResults),
       (∃ r, GetDeepSearchResults z req tr dec = (some r, none)) ∨
       (∃ e, GetDeepSearchResults z req tr dec = (none, some e))) ∧
    (∀ (z : zillow) (req : UpdatedPropertyDetailsRequest) (tr : String → TransportResult)
       (dec : String → Except String UpdatedPropertyDetails),
       (∃ r, GetUpdatedPropertyDetails z req tr dec = (some r, none)) ∨
       (∃ e, GetUpdatedPropertyDetails z req tr dec = (none, some e))) ∧
    (∀ (z : zillow) (req : RegionChildrenRequest) (tr : String → TransportResult)
       (dec : String → Except String RegionChildren),
       (∃ r, GetRegionChildren z req tr dec = (some r, none)) ∨
       (∃ e, GetRegionChildren z req tr dec = (none, some e))) ∧
    (∀ (z : zillow) (req : RegionChartRequest) (tr : String → TransportResult)
       (dec : String → Except String RegionChartResult),
       (∃ r, GetRegionChart z req tr dec = (some r, none)) ∨
       (∃ e, GetRegionChart z req tr dec = (none, some e))) ∧
    (∀ (z : zillow) (req : RateSummaryRequest) (tr : String → TransportResult)
       (dec : String → Except String RateSummary),
       (∃ r, GetRateSummary z req tr dec = (some r, none)) ∨
       (∃ e, GetRateSummary z req tr dec = (none, some e))) ∧
    (∀ (z : zillow) (req : MonthlyPaymentsRequest) (tr : String → TransportResult)
       (dec : String → Except String MonthlyPayments),
       (∃ r, GetMonthlyPayments z req tr dec = (some r, none)) ∨
       (∃ e, GetMonthlyPayments z req tr dec = (none, some e))) := by
  refine ⟨?_, ?_, ?_, ?_, ?_, ?_, ?_, ?_, ?_, ?_, ?_⟩ <;> intro z req tr dec
  case _ =>
    cases h : zillow.get z zestimatePath (zestimateValues z req) tr dec with
    | error e => exact Or.inr ⟨e, by simp [GetZestimate, h]⟩
    | ok r => exact Or.inl ⟨r, by simp [GetZestimate, h]⟩
  case _ =>
    cases h : zillow.get z searchResultsPath (searchResultsValues z req) tr dec with
    | error e => exact Or.inr ⟨e, by simp [GetSearchResults, h]⟩
    | ok r => exact Or.inl ⟨r, by simp [GetSearchResults, h]⟩
  case _ =>
    cases h : zillow.get z chartPath (chartValues z req) tr dec with
    | error e => exact Or.inr ⟨e, by simp [GetChart, h]⟩
    | ok r => exact Or.inl ⟨r, by simp [GetChart, h]⟩
  case _ =>
    cases h : zillow.get z compsPath (compsValues z req) tr dec with
    | error e => exact Or.inr ⟨e, by simp [GetComps, h]⟩
    | ok r => exact Or.inl ⟨r, by simp [GetComps, h]⟩
  case _ =>
    cases h : zillow.get z deepCompsPath (compsValues z req) tr dec with
    | error e => exact Or.inr ⟨e, by simp [GetDeepComps, h]⟩
    | ok r => exact Or.inl ⟨r, by simp [GetDeepComps, h]⟩
  case _ =>
    cases h : zillow.get z deepSearchPath (searchResultsValues z req) tr dec with
    | error e => exact Or.inr ⟨e, by simp [GetDeepSearchResults, h]⟩
    | ok r => exact Or.inl ⟨r, by simp [GetDeepSearchResults, h]⟩
  case _ =>
    cases h : zillow.get z updatedPropertyDetailsPath (updatedPropertyDetailsValues z req) tr dec with
    | error e => exact Or.inr ⟨e, by simp [GetUpdatedPropertyDetails, h]⟩
    | ok r => exact Or.inl ⟨r, by simp [GetUpdatedPropertyDetails, h]⟩
  case _ =>
    cases h : zillow.get z regionChildrenPath (regionChildrenValues z req) tr dec with
    | error e => exact Or.inr ⟨e, by simp [GetRegionChildren, h]⟩
    | ok r => exact Or.inl ⟨r, by simp [GetRegionChildren, h]⟩
  case _ =>
    cases h : zillow.get z regionChartPath (regionChartValues z req) tr dec with
    | error e => exact Or.inr ⟨e, by simp [GetRegionChart, h]⟩
    | ok r => exact Or.inl ⟨r, by simp [GetRegionChart, h]⟩
  case _ =>
    cases h : zillow.get z rateSummaryPath (rateSummaryValues z req) tr dec with
    | error e => exact Or.inr ⟨e, by simp [GetRateSummary, h]⟩
    | ok r => exact Or.inl ⟨r, by simp [GetRateSummary, h]⟩
  case _ =>
    cases h : zillow.get z monthlyPaymentsPath (monthlyPaymentsValues z req) tr dec with
    | error e => exact Or.inr ⟨e, by simp [GetMonthlyPayments, h]⟩
    | ok r => exact Or.inl ⟨r, by simp [GetMonthlyPayments, h]⟩

/-- C2: For every operation, a response body that decodes to a Message
with a non-zero code is not a call failure: the operation returns the
decoded Result (whose Message carries that code and text) and a nil
error. -/
theorem every_operation_nonzero_message_code_returned_in_result :
    (∀ (z : zillow) (req : ZestimateRequest) (tr : String → TransportResult)
       (dec : String → Except String ZestimateResult) (status : Nat) (body : String) (r : ZestimateResult),
       tr (requestUrl z zestimatePath (zestimateValues z req)) = Except.ok ⟨status, body⟩ →
       dec body = Except.ok r → r.Message.Code ≠ 0 →
       GetZestimate z req tr dec = (some r, none)) ∧
    (∀ (z : zillow) (req : SearchRequest) (tr : String → TransportResult)
       (dec : String → Except String SearchResults) (status : Nat) (body : String) (r : SearchResults),
       tr (requestUrl z searchResultsPath (searchResultsValues z req)) = Except.ok ⟨status, body⟩ →
       dec body = Except.ok r → r.Message.Code ≠ 0 →
       GetSearchResults z req tr dec = (some r, none)) ∧
    (∀ (z : zillow) (req : ChartRequest) (tr : String → TransportResult)
       (dec : String → Except String ChartResult) (status : Nat) (body : String) (r : ChartResult),
       tr (requestUrl z chartPath (chartValues z req)) = Except.ok ⟨status, body⟩ →
       dec body = Except.ok r → r.Message.Code ≠ 0 →
       GetChart z req tr dec = (some r, none)) ∧
    (∀ (z : zillow) (req : CompsRequest) (tr : String → TransportResult)
       (dec : String → Except String CompsResult) (status : Nat) (body : String) (r : CompsResult),
       tr (requestUrl z compsPath (compsValues z req)) = Except.ok ⟨status, body⟩ →
       dec body = Except.ok r → r.Message.Code ≠ 0 →
       GetComps z req tr dec = (some r, none)) ∧
    (∀ (z : zillow) (req : CompsRequest) (tr : String → TransportResult)
       (dec : String → Except String DeepCompsResult) (status : Nat) (body : String) (r : DeepCompsResult),
       tr (requestUrl z deepCompsPath (compsValues z req)) = Except.ok ⟨status, body⟩ →
       dec body = Except.ok r → r.Message.Code ≠ 0 →
       GetDeepComps z req tr dec = (some r, none)) ∧
    (∀ (z : zillow) (req : SearchRequest) (tr : String → TransportResult)
       (dec : String → Except String DeepSearchResults) (status : Nat) (body : String) (r : DeepSearchResults),
       tr (requestUrl z deepSearchPath (searchResultsValues z req)) = Except.ok ⟨status, body⟩ →
       dec body = Except.ok r → r.Message.Code ≠ 0 →
       GetDeepSearchResults z req tr dec = (some r, none)) ∧
    (∀ (z : zillow) (req : UpdatedPropertyDetailsRequest) (tr : String → TransportResult)
       (dec : String → Except String UpdatedPropertyDetails) (status : Nat) (body : String) (r : UpdatedPropertyDetails),
       tr (requestUrl z updatedPropertyDetailsPath (updatedPropertyDetailsValues z req)) = Except.ok ⟨status, body⟩ →
       dec body = Except.ok r → r.Message.Code ≠ 0 →
       GetUpdatedPropertyDetails z req tr dec = (some r, none)) ∧
    (∀ (z : zillow) (req : RegionChildrenRequest) (tr : String → TransportResult)
       (dec : String → Except String RegionChildren) (status : Nat) (body : String) (r : RegionChildren),
       tr (requestUrl z regionChildrenPath (regionChildrenValues z req)) = Except.ok ⟨status, body⟩ →
       dec body = Except.ok r → r.Message.Code ≠ 0 →
       GetRegionChildren z req tr dec = (some r, none)) ∧
    (∀ (z : zillow) (req : RegionChartRequest) (tr : String → TransportResult)
       (dec : String → Except String RegionChartResult) (status : Nat) (body : String) (r : RegionChartResult),
       tr (requestUrl z regionChartPath (regionChartValues z req)) = Except.ok ⟨status, body⟩ →
       dec body = Except.ok r → r.Message.Code ≠ 0 →
       GetRegionChart z req tr dec = (some r, none)) ∧
    (∀ (z : zillow) (req : RateSummaryRequest) (tr : String → TransportResult)
       (dec : String → Except String RateSummary) (status : Nat) (body : String) (r : RateSummary),
       tr (requestUrl z rateSummaryPath (rateSummaryValues z req)) = Except.ok ⟨status, body⟩ →
       dec body = Except.ok r → r.Message.Code ≠ 0 →
       GetRateSummary z req tr dec = (some r, none)) ∧
    (∀ (z : zillow) (req : MonthlyPaymentsRequest) (tr : String → TransportResult)
       (dec : String → Except String MonthlyPayments) (status : Nat) (body : String) (r : MonthlyPayments),
       tr (requestUrl z monthlyPaymentsPath (monthlyPaymentsValues z req)) = Except.ok ⟨status, body⟩ →
       dec body = Except.ok r → r.Message.Code ≠ 0 →
       GetMonthlyPayments z req tr dec = (some r, none)) := by
  refine ⟨?_, ?_, ?_, ?_, ?_, ?_, ?_, ?_, ?_, ?_, ?_⟩ <;> intro z req tr dec status body r h1 h2 _h3
  case _ =>
    have hg := get_ok_decode z zestimatePath (zestimateValues z req) tr dec status body r h1 h2
    simp [GetZestimate, hg]
  case _ =>
    have hg := get_ok_decode z searchResultsPath (searchResultsValues z req) tr dec status body r h1 h2
    simp [GetSearchResults, hg]
  case _ =>
    have hg := get_ok_decode z chartPath (chartValues z req) tr dec status body r h1 h2
    simp [GetChart, hg]
  case _ =>
    have hg := get_ok_decode z compsPath (compsValues z req) tr dec status body r h1 h2
    simp [GetComps, hg]
  case _ =>
    have hg := get_ok_decode z deepCompsPath (compsValues z req) tr dec status body r h1 h2
    simp [GetDeepComps, hg]
  case _ =>
    have hg := get_ok_decode z deepSearchPath (searchResultsValues z req) tr dec status body r h1 h2
    simp [GetDeepSearchResults, hg]
  case _ =>
    have hg := get_ok_decode z updatedPropertyDetailsPath (updatedPropertyDetailsValues z req) tr dec status body r h1 h2
    simp [GetUpdatedPropertyDetails, hg]
  case _ =>
    have hg := get_ok_decode z regionChildrenPath (regionChildrenValues z req) tr dec status body r h1 h2
    simp [GetRegionChildren, hg]
  case _ =>
    have hg := get_ok_decode z regionChartPath (regionChartValues z req) tr dec status body r h1 h2
    simp [GetRegionChart, hg]
  case _ =>
    have hg := get_ok_decode z rateSummaryPath (rateSummaryValues z req) tr dec status body r h1 h2
    simp [GetRateSummary, hg]
  case _ =>
    have hg := get_ok_decode z monthlyPaymentsPath (monthlyPaymentsValues z req) tr dec status body r h1 h2
    simp [GetMonthlyPayments, hg]

/-- C5: For every operation, a response body the xml decoder rejects (for
example a truncated document) makes the call fail with a decode error and
a nil Result, never a zero-valued Result with a nil error. -/
theorem every_operation_malformed_body_decode_error :
    (∀ (z : zillow) (req : ZestimateRequest) (tr : String → TransportResult)
       (dec : String → Except String ZestimateResult) (status : Nat) (body e : String),
       tr (requestUrl z zestimatePath (zestimateValues z req)) = Except.ok ⟨status, body⟩ →
       dec body = Except.error e →
       GetZestimate z req tr dec = (none, some (GoError.decodeErr e))) ∧
    (∀ (z : zillow) (req : SearchRequest) (tr : String → TransportResult)
       (dec : String → Except String SearchResults) (status : Nat) (body e : String),
       tr (requestUrl z searchResultsPath (searchResultsValues z req)) = Except.ok ⟨status, body⟩ →
       dec body = Except.error e →
       GetSearchResults z req tr dec = (none, some (GoError.decodeErr e))) ∧
    (∀ (z : zillow) (req : ChartRequest) (tr : String → TransportResult)
       (dec : String → Except String ChartResult) (status : Nat) (body e : String),
       tr (requestUrl z chartPath (chartValues z req)) = Except.ok ⟨status, body⟩ →
       dec body = Except.error e →
       GetChart z req tr dec = (none, some (GoError.decodeErr e))) ∧
    (∀ (z : zillow) (req : CompsRequest) (tr : String → TransportResult)
       (dec : String → Except String CompsResult) (status : Nat) (body e : String),
       tr (requestUrl z compsPath (compsValues z req)) = Except.ok ⟨status, body⟩ →
       dec body = Except.error e →
       GetComps z req tr dec = (none, some (GoError.decodeErr e))) ∧
    (∀ (z : zillow) (req : CompsRequest) (tr : String → TransportResult)
       (dec : String → Except String DeepCompsResult) (status : Nat) (body e : String),
       tr (requestUrl z deepCompsPath (compsValues z req)) = Except.ok ⟨status, body⟩ →
       dec body = Except.error e →
       GetDeepComps z req tr dec = (none, some (GoError.decodeErr e))) ∧
    (∀ (z : zillow) (req : SearchRequest) (tr : String → TransportResult)
       (dec : String → Except String DeepSearchResults) (status : Nat) (body e : String),
       tr (requestUrl z deepSearchPath (searchResultsValues z req)) = Except.ok ⟨status, body⟩ →
       dec body = Except.error e →
       GetDeepSearchResults z req tr dec = (none, some (GoError.decodeErr e))) ∧
    (∀ (z : zillow) (req : UpdatedPropertyDetailsRequest) (tr : String → TransportResult)
       (dec : String → Except String UpdatedPropertyDetails) (status : Nat) (body e : String),
       tr (requestUrl z updatedPropertyDetailsPath (updatedPropertyDetailsValues z req)) = Except.ok ⟨status, body⟩ →
       dec body = Except.error e →
       GetUpdatedPropertyDetails z req tr dec = (none, some (GoError.decodeErr e))) ∧
    (∀ (z : zillow) (req : RegionChildrenRequest) (tr : String → TransportResult)
       (dec : String → Except String RegionChildren) (status : Nat) (body e : String),
       tr (requestUrl z regionChildrenPath (regionChildrenValues z req)) = Except.ok ⟨status, body⟩ →
       dec body = Except.error e →
       GetRegionChildren z req tr dec = (none, some (GoError.decodeErr e))) ∧
    (∀ (z : zillow) (req : RegionChartRequest) (tr : String → TransportResult)
       (dec : String → Except String RegionChartResult) (status : Nat) (body e : String),
       tr (requestUrl z regionChartPath (regionChartValues z req)) = Except.ok ⟨status, body⟩ →
       dec body = Except.error e →
       GetRegionChart z req tr dec = (none, some (GoError.decodeErr e))) ∧
    (∀ (z : zillow) (req : RateSummaryRequest) (tr : String → TransportResult)
       (dec : String → Except String RateSummary) (status : Nat) (body e : String),
       tr (requestUrl z rateSummaryPath (rateSummaryValues z req)) = Except.ok ⟨status, body⟩ →
       dec body = Except.error e →
       GetRateSummary z req tr dec = (none, some (GoError.decodeErr e))) ∧
    (∀ (z : zillow) (req : MonthlyPaymentsRequest) (tr : String → TransportResult)
       (dec : String → Except String MonthlyPayments) (status : Nat) (body e : String),
       tr (requestUrl z monthlyPaymentsPath (monthlyPaymentsValues z req)) = Except.ok ⟨status, body⟩ →
       dec body = Except.error e →
       GetMonthlyPayments z req tr dec = (none, some (GoError.decodeErr e))) := by
  refine ⟨?_, ?_, ?_, ?_, ?_, ?_, ?_, ?_, ?_, ?_, ?_⟩ <;> intro z req tr dec status body e h1 h2
  case _ =>
    have hg := get_decode_fail z zestimatePath (zestimateValues z req) tr dec status body e h1 h2
    simp [GetZestimate, hg]
  case _ =>
    have hg := get_decode_fail z searchResultsPath (searchResultsValues z req) tr dec status body e h1 h2
    simp [GetSearchResults, hg]
  case _ =>
    have hg := get_decode_fail z chartPath (chartValues z req) tr dec status body e h1 h2
    simp [GetChart, hg]
  case _ =>
    have hg := get_decode_fail z compsPath (compsValues z req) tr dec status body e h1 h2
    simp [GetComps, hg]
  case _ =>
    have hg := get_decode_fail z deepCompsPath (compsValues z req) tr dec status body e h1 h2
    simp [GetDeepComps, hg]
  case _ =>
    have hg := get_decode_fail z deepSearchPath (searchResultsValues z req) tr dec status body e h1 h2
    simp [GetDeepSearchResults, hg]
  case _ =>
    have hg := get_decode_fail z updatedPropertyDetailsPath (updatedPropertyDetailsValues z req) tr dec status body e h1 h2
    simp [GetUpdatedPropertyDetails, hg]
  case _ =>
    have hg := get_decode_fail z regionChildrenPath (regionChildrenValues z req) tr dec status body e h1 h2
    simp [GetRegionChildren, hg]
  case _ =>
    have hg := get_decode_fail z regionChartPath (regionChartValues z req) tr dec status body e h1 h2
    simp [GetRegionChart, hg]
  case _ =>
    have hg := get_decode_fail z rateSummaryPath (rateSummaryValues z req) tr dec status body e h1 h2
    simp [GetRateSummary, hg]
  case _ =>
    have hg := get_decode_fail z monthlyPaymentsPath (monthlyPaymentsValues z req) tr dec status body e h1 h2
    simp [GetMonthlyPayments, hg]

/-- C4 (amended): for every operation an unreachable transport fails the
call with a transport error and a nil Result; a non-2xx HTTP response is
not itself a failure: the status code of a delivered response is ignored
and the body is decoded regardless of it. -/
theorem transport_error_fails_and_status_ignored :
    (∀ (z : zillow) (req : ZestimateRequest) (dec : String → Except String ZestimateResult) (e : String),
       GetZestimate z req (failTransport e) dec = (none, some (GoError.transportErr e))) ∧
    (∀ (z : zillow) (req : SearchRequest) (dec : String → Except String SearchResults) (e : String),
       GetSearchResults z req (failTransport e) dec = (none, some (GoError.transportErr e))) ∧
    (∀ (z : zillow) (req : ChartRequest) (dec : String → Except String ChartResult) (e : String),
       GetChart z req (failTransport e) dec = (none, some (GoError.transportErr e))) ∧
    (∀ (z : zillow) (req : CompsRequest) (dec : String → Except String CompsResult) (e : String),
       GetComps z req (failTransport e) dec = (none, some (GoError.transportErr e))) ∧
    (∀ (z : zillow) (req : CompsRequest) (dec : String → Except String DeepCompsResult) (e : String),
       GetDeepComps z req (failTransport e) dec = (none, some (GoError.transportErr e))) ∧
    (∀ (z : zillow) (req : SearchRequest) (dec : String → Except String DeepSearchResults) (e : String),
       GetDeepSearchResults z req (failTransport e) dec = (none, some (GoError.transportErr e))) ∧
    (∀ (z : zillow) (req : UpdatedPropertyDetailsRequest) (dec : String → Except String UpdatedPropertyDetails) (e : String),
       GetUpdatedPropertyDetails z req (failTransport e) dec = (none, some (GoError.transportErr e))) ∧
    (∀ (z : zillow) (req : RegionChildrenRequest) (dec : String → Except String RegionChildren) (e : String),
       GetRegionChildren z req (failTransport e) dec = (none, some (GoError.transportErr e))) ∧
    (∀ (z : zillow) (req : RegionChartRequest) (dec : String → Except String RegionChartResult) (e : String),
       GetRegionChart z req (failTransport e) dec = (none, some (GoError.transportErr e))) ∧
    (∀ (z : zillow) (req : RateSummaryRequest) (dec : String → Except String RateSummary) (e : String),
       GetRateSummary z req (failTransport e) dec = (none, some (GoError.transportErr e))) ∧
    (∀ (z : zillow) (req : MonthlyPaymentsRequest) (dec : String → Except String MonthlyPayments) (e : String),
       GetMonthlyPayments z req (failTransport e) dec = (none, some (GoError.transportErr e))) ∧
    (∀ (z : zillow) (req : ZestimateRequest) (dec : String → Except String ZestimateResult)
       (s t : Nat) (body : String),
       GetZestimate z req (constTransport s body) dec = GetZestimate z req (constTransport t body) dec) ∧
    (∀ (z : zillow) (req : SearchRequest) (dec : String → Except String SearchResults)
       (s t : Nat) (body : String),
       GetSearchResults z req (constTransport s body) dec = GetSearchResults z req (constTransport t body) dec) ∧
    (∀ (z : zillow) (req : ChartRequest) (dec : String → Except String ChartResult)
       (s t : Nat) (body : String),
       GetChart z req (constTransport s body) dec = GetChart z req (constTransport t body) dec) ∧
    (∀ (z : zillow) (req : CompsRequest) (dec : String → Except String CompsResult)
       (s t : Nat) (body : String),
       GetComps z req (constTransport s body) dec = GetComps z req (constTransport t body) dec) ∧
    (∀ (z : zillow) (req : CompsRequest) (dec : String → Except String DeepCompsResult)
       (s t : Nat) (body : String),
       GetDeepComps z req (constTransport s body) dec = GetDeepComps z req (constTransport t body) dec) ∧
    (∀ (z : zillow) (req : SearchRequest) (dec : String → Except String DeepSearchResults)
       (s t : Nat) (body : String),
       GetDeepSearchResults z req (constTransport s body) dec = GetDeepSearchResults z req (constTransport t body) dec) ∧
    (∀ (z : zillow) (req : UpdatedPropertyDetailsRequest) (dec : String → Except String UpdatedPropertyDetails)
       (s t : Nat) (body : String),
       GetUpdatedPropertyDetails z req (constTransport s body) dec = GetUpdatedPropertyDetails z req (constTransport t body) dec) ∧
    (∀ (z : zillow) (req : RegionChildrenRequest) (dec : String → Except String RegionChildren)
       (s t : Nat) (body : String),
       GetRegionChildren z req (constTransport s body) dec = GetRegionChildren z req (constTransport t body) dec) ∧
    (∀ (z : zillow) (req : RegionChartRequest) (dec : String → Except String RegionChartResult)
       (s t : Nat) (body : String),
       GetRegionChart z req (constTransport s body) dec = GetRegionChart z req (constTransport t body) dec) ∧
    (∀ (z : zillow) (req : RateSummaryRequest) (dec : String → Except String RateSummary)
       (s t : Nat) (body : String),
       GetRateSummary z req (constTransport s body) dec = GetRateSummary z req (constTransport t body) dec) ∧
    (∀ (z : zillow) (req : MonthlyPaymentsRequest) (dec : String → Except String MonthlyPayments)
       (s t : Nat) (body : String),
       GetMonthlyPayments z req (constTransport s body) dec = GetMonthlyPayments z req (constTransport t body) dec) := by
  refine ⟨?_, ?_, ?_, ?_, ?_, ?_, ?_, ?_, ?_, ?_, ?_, ?_, ?_, ?_, ?_, ?_, ?_, ?_, ?_, ?_, ?_, ?_⟩
  case _ =>
    intro z req dec e
    simp [GetZestimate, zillow.get, failTransport]
  case _ =>
    intro z req dec e
    simp [GetSearchResults, zillow.get, failTransport]
  case _ =>
    intro z req dec e
    simp [GetChart, zillow.get, failTransport]
  case _ =>
    intro z req dec e
    simp [GetComps, zillow.get, failTransport]
  case _ =>
    intro z req dec e
    simp [GetDeepComps, zillow.get, failTransport]
  case _ =>
    intro z req dec e
    simp [GetDeepSearchResults, zillow.get, failTransport]
  case _ =>
    intro z req dec e
    simp [GetUpdatedPropertyDetails, zillow.get, failTransport]
  case _ =>
    intro z req dec e
    simp [GetRegionChildren, zillow.get, failTransport]
  case _ =>
    intro z req dec e
    simp [GetRegionChart, zillow.get, failTransport]
  case _ =>
    intro z req dec e
    simp [GetRateSummary, zillow.get, failTransport]
  case _ =>
    intro z req dec e
    simp [GetMonthlyPayments, zillow.get, failTransport]
  case _ =>
    intro z req dec s t body
    simp [GetZestimate, zillow.get, constTransport]
  case _ =>
    intro z req dec s t body
    simp [GetSearchResults, zillow.get, constTransport]
  case _ =>
    intro z req dec s t body
    simp [GetChart, zillow.get, constTransport]
  case _ =>
    intro z req dec s t body
    simp [GetComps, zillow.get, constTransport]
  case _ =>
    intro z req dec s t body
    simp [GetDeepComps, zillow.get, constTransport]
  case _ =>
    intro z req dec s t body
    simp [GetDeepSearchResults, zillow.get, constTransport]
  case _ =>
    intro z req dec s t body
    simp [GetUpdatedPropertyDetails, zillow.get, constTransport]
  case _ =>
    intro z req dec s t body
    simp [GetRegionChildren, zillow.get, constTransport]
  case _ =>
    intro z req dec s t body
    simp [GetRegionChart, zillow.get, constTransport]
  case _ =>
    intro z req dec s t body
    simp [GetRateSummary, zillow.get, constTransport]
  case _ =>
    intro z req dec s t body
    simp [GetMonthlyPayments, zillow.get, constTransport]

/-- C6: for every operation the request URL issued by the client is the
base URL, then a slash, then the operation path segment, then .htm?, then
the encoded query string. -/
theorem every_operation_request_url_shape :
    (∀ (z : zillow) (req : ZestimateRequest),
       requestUrl z zestimatePath (zestimateValues z req) =
         z.url ++ "/" ++ "GetZestimate" ++ ".htm?" ++ Values.encode (zestimateValues z req)) ∧
    (∀ (z : zillow) (req : SearchRequest),
       requestUrl z searchResultsPath (searchResultsValues z req) =
         z.url ++ "/" ++ "GetSearchResults" ++ ".htm?" ++ Values.encode (searchResultsValues z req)) ∧
    (∀ (z : zillow) (req : ChartRequest),
       requestUrl z chartPath (chartValues z req) =
         z.url ++ "/" ++ "GetChart" ++ ".htm?" ++ Values.encode (chartValues z req)) ∧
    (∀ (z : zillow) (req : CompsRequest),
       requestUrl z compsPath (compsValues z req) =
         z.url ++ "/" ++ "GetComps" ++ ".htm?" ++ Values.encode (compsValues z req)) ∧
    (∀ (z : zillow) (req : CompsRequest),
       requestUrl z deepCompsPath (compsValues z req) =
         z.url ++ "/" ++ "GetDeepComps" ++ ".htm?" ++ Values.encode (compsValues z req)) ∧
    (∀ (z : zillow) (req : SearchRequest),
       requestUrl z deepSearchPath (searchResultsValues z req) =
         z.url ++ "/" ++ "GetDeepSearchResults" ++ ".htm?" ++ Values.encode (searchResultsValues z req)) ∧
    (∀ (z : zillow) (req : UpdatedPropertyDetailsRequest),
       requestUrl z updatedPropertyDetailsPath (updatedPropertyDetailsValues z req) =
         z.url ++ "/" ++ "GetUpdatedPropertyDetails" ++ ".htm?" ++ Values.encode (updatedPropertyDetailsValues z req)) ∧
    (∀ (z : zillow) (req : RegionChildrenRequest),
       requestUrl z regionChildrenPath (regionChildrenValues z req) =
         z.url ++ "/" ++ "GetRegionChildren" ++ ".htm?" ++ Values.encode (regionChildrenValues z req)) ∧
    (∀ (z : zillow) (req : RegionChartRequest),
       requestUrl z regionChartPath (regionChartValues z req) =
         z.url ++ "/" ++ "GetRegionChart" ++ ".htm?" ++ Values.encode (regionChartValues z req)) ∧
    (∀ (z : zillow) (req : RateSummaryRequest),
       requestUrl z rateSummaryPath (rateSummaryValues z req) =
         z.url ++ "/" ++ "GetRateSummary" ++ ".htm?" ++ Values.encode (rateSummaryValues z req)) ∧
    (∀ (z : zillow) (req : MonthlyPaymentsRequest),
       requestUrl z monthlyPaymentsPath (monthlyPaymentsValues z req) =
         z.url ++ "/" ++ "GetMonthlyPayments" ++ ".htm?" ++ Values.encode (monthlyPaymentsValues z req)) := by
  refine ⟨?_, ?_, ?_, ?_, ?_, ?_, ?_, ?_, ?_, ?_, ?_⟩ <;> intro z req
  case _ =>
    exact congrArg (fun t => t ++ Values.encode (zestimateValues z req))
      (urlShift z.url zestimatePath ".htm?" "GetZestimate" rfl)
  case _ =>
    exact congrArg (fun t => t ++ Values.encode (searchResultsValues z req))
      (urlShift z.url searchResultsPath ".htm?" "GetSearchResults" rfl)
  case _ =>
    exact congrArg (fun t => t ++ Values.encode (chartValues z req))
      (urlShift z.url chartPath ".htm?" "GetChart" rfl)
  case _ =>
    exact congrArg (fun t => t ++ Values.encode (compsValues z req))
      (urlShift z.url compsPath ".htm?" "GetComps" rfl)
  case _ =>
    exact congrArg (fun t => t ++ Values.encode (compsValues z req))
      (urlShift z.url deepCompsPath ".htm?" "GetDeepComps" rfl)
  case _ =>
    exact congrArg (fun t => t ++ Values.encode (searchResultsValues z req))
      (urlShift z.url deepSearchPath ".htm?" "GetDeepSearchResults" rfl)
  case _ =>
    exact congrArg (fun t => t ++ Values.encode (updatedPropertyDetailsValues z req))
      (urlShift z.url updatedPropertyDetailsPath ".htm?" "GetUpdatedPropertyDetails" rfl)
  case _ =>
    exact congrArg (fun t => t ++ Values.encode (regionChildrenValues z req))
      (urlShift z.url regionChildrenPath ".htm?" "GetRegionChildren" rfl)
  case _ =>
    exact congrArg (fun t => t ++ Values.encode (regionChartValues z req))
      (urlShift z.url regionChartPath ".htm?" "GetRegionChart" rfl)
  case _ =>
    exact congrArg (fun t => t ++ Values.encode (rateSummaryValues z req))
      (urlShift z.url rateSummaryPath ".htm?" "GetRateSummary" rfl)
  case _ =>
    exact congrArg (fun t => t ++ Values.encode (monthlyPaymentsValues z req))
      (urlShift z.url monthlyPaymentsPath ".htm?" "GetMonthlyPayments" rfl)

/-- C8: no operation mutates the request passed in or the client state:
the explicit-state form of every operation returns the client and the
request unchanged. -/
theorem every_operation_preserves_request_and_client_state :
    (∀ (z : zillow) (req : ZestimateRequest) (tr : String → TransportResult)
       (dec : String → Except String ZestimateResult),
       (GetZestimateSt z req tr dec).2.1 = z ∧ (GetZestimateSt z req tr dec).2.2 = req) ∧
    (∀ (z : zillow) (req : SearchRequest) (tr : String → TransportResult)
       (dec : String → Except String SearchResults),
       (GetSearchResultsSt z req tr dec).2.1 = z ∧ (GetSearchResultsSt z req tr dec).2.2 = req) ∧
    (∀ (z : zillow) (req : ChartRequest) (tr : String → TransportResult)
       (dec : String → Except String ChartResult),
       (GetChartSt z req tr dec).2.1 = z ∧ (GetChartSt z req tr dec).2.2 = req) ∧
    (∀ (z : zillow) (req : CompsRequest) (tr : String → TransportResult)
       (dec : String → Except String CompsResult),
       (GetCompsSt z req tr dec).2.1 = z ∧ (GetCompsSt z req tr dec).2.2 = req) ∧
    (∀ (z : zillow) (req : CompsRequest) (tr : String → TransportResult)
       (dec : String → Except String DeepCompsResult),
       (GetDeepCompsSt z req tr dec).2.1 = z ∧ (GetDeepCompsSt z req tr dec).2.2 = req) ∧
    (∀ (z : zillow) (req : SearchRequest) (tr : String → TransportResult)
       (dec : String → Except String DeepSearchResults),
       (GetDeepSearchResultsSt z req tr dec).2.1 = z ∧ (GetDeepSearchResultsSt z req tr dec).2.2 = req) ∧
    (∀ (z : zillow) (req : UpdatedPropertyDetailsRequest) (tr : String → TransportResult)
       (dec : String → Except String UpdatedPropertyDetails),
       (GetUpdatedPropertyDetailsSt z req tr dec).2.1 = z ∧ (GetUpdatedPropertyDetailsSt z req tr dec).2.2 = req) ∧
    (∀ (z : zillow) (req : RegionChildrenRequest) (tr : String → TransportResult)
       (dec : String → Except String RegionChildren),
       (GetRegionChildrenSt z req tr dec).2.1 = z ∧ (GetRegionChildrenSt z req tr dec).2.2 = req) ∧
    (∀ (z : zillow) (req : RegionChartRequest) (tr : String → TransportResult)
       (dec : String → Except String RegionChartResult),
       (GetRegionChartSt z req tr dec).2.1 = z ∧ (GetRegionChartSt z req tr dec).2.2 = req) ∧
    (∀ (z : zillow) (req : RateSummaryRequest) (tr : String → TransportResult)
       (dec : String → Except String RateSummary),
       (GetRateSummarySt z req tr dec).2.1 = z ∧ (GetRateSummarySt z req tr dec).2.2 = req) ∧
    (∀ (z : zillow) (req : MonthlyPaymentsRequest) (tr : String → TransportResult)
       (dec : String → Except String MonthlyPayments),
       (GetMonthlyPaymentsSt z req tr dec).2.1 = z ∧ (GetMonthlyPaymentsSt z req tr dec).2.2 = req) :=
  ⟨fun _ _ _ _ => ⟨rfl, rfl⟩,
   fun _ _ _ _ => ⟨rfl, rfl⟩,
   fun _ _ _ _ => ⟨rfl, rfl⟩,
   fun _ _ _ _ => ⟨rfl, rfl⟩,
   fun _ _ _ _ => ⟨rfl, rfl⟩,
   fun _ _ _ _ => ⟨rfl, rfl⟩,
   fun _ _ _ _ => ⟨rfl, rfl⟩,
   fun _ _ _ _ => ⟨rfl, rfl⟩,
   fun _ _ _ _ => ⟨rfl, rfl⟩,
   fun _ _ _ _ => ⟨rfl, rfl⟩,
   fun _ _ _ _ => ⟨rfl, rfl⟩⟩

/-- C10: query construction is deterministic: equal client state and equal
requests give character-for-character identical query strings, the encoder
emits keys in sorted order, and the encoded string is a function of the
sorted key-value list alone. -/
theorem query_construction_deterministic_and_sorted :
    (∀ (z₁ z₂ : zillow) (r₁ r₂ : ZestimateRequest), z₁ = z₂ → r₁ = r₂ →
       Values.encode (zestimateValues z₁ r₁) = Values.encode (zestimateValues z₂ r₂)) ∧
    (∀ (z₁ z₂ : zillow) (r₁ r₂ : SearchRequest), z₁ = z₂ → r₁ = r₂ →
       Values.encode (searchResultsValues z₁ r₁) = Values.encode (searchResultsValues z₂ r₂)) ∧
    (∀ (z₁ z₂ : zillow) (r₁ r₂ : ChartRequest), z₁ = z₂ → r₁ = r₂ →
       Values.encode (chartValues z₁ r₁) = Values.encode (chartValues z₂ r₂)) ∧
    (∀ (z₁ z₂ : zillow) (r₁ r₂ : CompsRequest), z₁ = z₂ → r₁ = r₂ →
       Values.encode (compsValues z₁ r₁) = Values.encode (compsValues z₂ r₂)) ∧
    (∀ (z₁ z₂ : zillow) (r₁ r₂ : CompsRequest), z₁ = z₂ → r₁ = r₂ →
       Values.encode (compsValues z₁ r₁) = Values.encode (compsValues z₂ r₂)) ∧
    (∀ (z₁ z₂ : zillow) (r₁ r₂ : SearchRequest), z₁ = z₂ → r₁ = r₂ →
       Values.encode (searchResultsValues z₁ r₁) = Values.encode (searchResultsValues z₂ r₂)) ∧
    (∀ (z₁ z₂ : zillow) (r₁ r₂ : UpdatedPropertyDetailsRequest), z₁ = z₂ → r₁ = r₂ →
       Values.encode (updatedPropertyDetailsValues z₁ r₁) = Values.encode (updatedPropertyDetailsValues z₂ r₂)) ∧
    (∀ (z₁ z₂ : zillow) (r₁ r₂ : RegionChildrenRequest), z₁ = z₂ → r₁ = r₂ →
       Values.encode (regionChildrenValues z₁ r₁) = Values.encode (regionChildrenValues z₂ r₂)) ∧
    (∀ (z₁ z₂ : zillow) (r₁ r₂ : RegionChartRequest), z₁ = z₂ → r₁ = r₂ →
       Values.encode (regionChartValues z₁ r₁) = Values.encode (regionChartValues z₂ r₂)) ∧
    (∀ (z₁ z₂ : zillow) (r₁ r₂ : RateSummaryRequest), z₁ = z₂ → r₁ = r₂ →
       Values.encode (rateSummaryValues z₁ r₁) = Values.encode (rateSummaryValues z₂ r₂)) ∧
    (∀ (z₁ z₂ : zillow) (r₁ r₂ : MonthlyPaymentsRequest), z₁ = z₂ → r₁ = r₂ →
       Values.encode (monthlyPaymentsValues z₁ r₁) = Values.encode (monthlyPaymentsValues z₂ r₂)) ∧
    (∀ v : Values, List.Chain' keyLe (sortByKey v)) ∧
    (∀ v : Values, Values.encode v =
       String.intercalate "&"
         (concatMap (fun p => p.2.map (fun x => queryEscape p.1 ++ "=" ++ queryEscape x)) (sortByKey v))) := by
  refine ⟨?_, ?_, ?_, ?_, ?_, ?_, ?_, ?_, ?_, ?_, ?_, ?_, ?_⟩
  case _ =>
    intro z₁ z₂ r₁ r₂ h1 h2
    subst h1; subst h2; rfl
  case _ =>
    intro z₁ z₂ r₁ r₂ h1 h2
    subst h1; subst h2; rfl
  case _ =>
    intro z₁ z₂ r₁ r₂ h1 h2
    subst h1; subst h2; rfl
  case _ =>
    intro z₁ z₂ r₁ r₂ h1 h2
    subst h1; subst h2; rfl
  case _ =>
    intro z₁ z₂ r₁ r₂ h1 h2
    subst h1; subst h2; rfl
  case _ =>
    intro z₁ z₂ r₁ r₂ h1 h2
    subst h1; subst h2; rfl
  case _ =>
    intro z₁ z₂ r₁ r₂ h1 h2
    subst h1; subst h2; rfl
  case _ =>
    intro z₁ z₂ r₁ r₂ h1 h2
    subst h1; subst h2; rfl
  case _ =>
    intro z₁ z₂ r₁ r₂ h1 h2
    subst h1; subst h2; rfl
  case _ =>
    intro z₁ z₂ r₁ r₂ h1 h2
    subst h1; subst h2; rfl
  case _ =>
    intro z₁ z₂ r₁ r₂ h1 h2
    subst h1; subst h2; rfl
  case _ => exact chain'_sortByKey
  case _ => exact fun v => rfl

/-- C1: GetRegionChart does not send the neighborhood field under the
remote API parameter name neighborhood: the key list of its query is
exactly the operation parameters plus zws-Id, but the neighborhood goes
out under the misspelled key neightborhood, and no key neighborhood
appears; the full encoded query at a concrete request shows the wire
form. -/
theorem regionChart_neighborhood_key_misspelled :
    (regionChartValues zTest regionChartRequestTest).map Prod.fst =
      [zwsIdParam, cityParam, stateParam, neighboorhoodParam, zipParam,
       unitTypeParam, widthParam, heightParam, chartDurationParam] ∧
    neighboorhoodParam = "neightborhood" ∧
    "neighborhood" ∉ (regionChartValues zTest regionChartRequestTest).map Prod.fst ∧
    (neighboorhoodParam, ["East Queen Anne"]) ∈ regionChartValues zTest regionChartRequestTest ∧
    Values.encode (regionChartValues zTest regionChartRequestTest) =
      "chartDuration=1year&city=lacey&height=150&neightborhood=East+Queen+Anne&state=WA&unit-type=percent&width=300&zip=98109&zws-Id=test-id" :=
  ⟨by decide, rfl, by decide, by decide, by decide⟩

/-- C4 (counterexample): a delivered response with the non-2xx status 404
and a decodable body does not fail with a transport error and a nil
Result: the call returns a non-nil Result and a nil error. -/
theorem non2xx_http_response_not_a_transport_failure :
    (GetZestimate zTest zestimateRequestTest (constTransport 404 emptyZestimateBody)
        decodeZestimateResult).2 = none ∧
    (GetZestimate zTest zestimateRequestTest (constTransport 404 emptyZestimateBody)
        decodeZestimateResult).1 = some emptyZestimateResult :=
  ⟨rfl, rfl⟩

set_option maxRecDepth 100000 in
/-- C7: decoding the valuation fixture for property id 48749425 yields a
ZestimateResult with a nil error whose Address.Zipcode is 98109 and whose
Zestimate.Amount.Value is 1219500. -/
theorem zestimate_fixture_decoded_values :
    GetZestimate zTest zestimateRequestTest (constTransport 200 zestimateFixture)
        decodeZestimateResult = (some zestimateFixtureResult, none) ∧
    zestimateFixtureResult.Address.Zipcode = "98109" ∧
    zestimateFixtureResult.Zestimate.Amount.Value = 1219500 :=
  ⟨rfl, rfl, rfl⟩

/-- C9: recognized request fields are serialized unconditionally, zero
values included: a false bool goes out as the literal false, a zero int
as 0, and an empty string as an empty-valued parameter, as the concrete
zero-valued queries show; the field parameters are present in the values
of every request. -/
theorem zero_valued_fields_serialized_unconditionally :
    Values.encode (searchResultsValues zTest ⟨"", "", false⟩) =
      "address=&citystatezip=&rentzestimate=false&zws-Id=test-id" ∧
    Values.encode (chartValues zTest ⟨"", "", 0, 0, ""⟩) =
      "chartDuration=&height=0&unit-type=&width=0&zpid=&zws-Id=test-id" ∧
    (∀ (z : zillow) (req : SearchRequest),
      (rentzestimateParam, [formatBool req.Rentzestimate]) ∈ searchResultsValues z req) ∧
    (∀ (z : zillow) (req : SearchRequest),
      (addressParam, [req.Address]) ∈ searchResultsValues z req) ∧
    (∀ (z : zillow) (req : ChartRequest),
      (widthParam, [itoa req.Width]) ∈ chartValues z req) ∧
    (∀ (z : zillow) (req : ChartRequest),
      (zpidParam, [req.Zpid]) ∈ chartValues z req) :=
  ⟨by decide, by decide,
   fun z req => by simp [searchResultsValues],
   fun z req => by simp [searchResultsValues],
   fun z req => by simp [chartValues],
   fun z req => by simp [chartValues]⟩

set_option maxRecDepth 100000 in
/-- Witness for C2: a concrete service-error body with Message code 2 is
decoded and returned with a nil error by GetZestimate. -/
theorem every_operation_nonzero_message_code_returned_in_result_wit :
    GetZestimate zTest zestimateRequestTest (constTransport 200 zestimateErrorFixture)
        decodeZestimateResult = (some zestimateErrorResult, none) ∧
    zestimateErrorResult.Message.Code = 2 :=
  ⟨every_operation_nonzero_message_code_returned_in_result.1 zTest zestimateRequestTest
      (constTransport 200 zestimateErrorFixture) decodeZestimateResult 200
      zestimateErrorFixture zestimateErrorResult rfl rfl (by decide),
   by decide⟩

set_option maxRecDepth 100000 in
/-- Witness for C5: a concrete truncated body makes GetZestimate fail
with the decode error and a nil Result. -/
theorem every_operation_malformed_body_decode_error_wit :
    GetZestimate zTest zestimateRequestTest (constTransport 200 truncatedFixture)
        decodeZestimateResult = (none, some (GoError.decodeErr truncatedErrMsg)) :=
  every_operation_malformed_body_decode_error.1 zTest zestimateRequestTest
    (constTransport 200 truncatedFixture) decodeZestimateResult 200
    truncatedFixture truncatedErrMsg rfl rfl

/-- Witness for C10: the determinism component applied at a concrete
client and request. -/
theorem query_construction_deterministic_and_sorted_wit :
    Values.encode (zestimateValues zTest zestimateRequestTest) =
      Values.encode (zestimateValues zTest zestimateRequestTest) :=
  query_construction_deterministic_and_sorted.1 zTest zTest
    zestimateRequestTest zestimateRequestTest rfl rfl

end Zillow
